import Mathlib

/-
Verification of the Marvell Bluetooth vendor-library hardware sequencer
(libbt-mrvl/src/hardware_mrvl.c).

The C code is a callback-driven sequencer over a command/event transport.
We embed it shallowly: each C function becomes a pure Lean function that
returns the list of externally visible actions it performs (buffer
deallocations, transport transmissions, result-callback invocations), in
program order.  The environment is modelled by two booleans per call:
whether the allocator succeeds (allocOk) and whether the transport accepts
the transmission (xmitOk).  The registered callback table bt_vendor_cbacks
is modelled by a boolean where the C code branches on it; functions that
assert it non-null are embedded under that precondition.  Mutable global
byte arrays become an explicit Globals record threaded through
hw_mrvl_config_start (the only function that writes one).  Byte memory is
modelled as List Nat whose entries are bytes (each less than 256); claims
that need byte-ness state it as a hypothesis.
-/

namespace Mrvl

/-- Result values passed to the vendor result callbacks,
BT_VND_OP_RESULT_SUCCESS and BT_VND_OP_RESULT_FAIL. -/
inductive VndResult where
  | success
  | fail
deriving DecidableEq, Repr

/-- Opcode HCI_CMD_MARVELL_WRITE_PCM_SETTINGS. -/
def HCI_CMD_MARVELL_WRITE_PCM_SETTINGS : Nat := 0xFC07

/-- Opcode HCI_CMD_MARVELL_WRITE_PCM_SYNC_SETTINGS. -/
def HCI_CMD_MARVELL_WRITE_PCM_SYNC_SETTINGS : Nat := 0xFC28

/-- Opcode HCI_CMD_MARVELL_WRITE_PCM_LINK_SETTINGS. -/
def HCI_CMD_MARVELL_WRITE_PCM_LINK_SETTINGS : Nat := 0xFC29

/-- Opcode HCI_CMD_MARVELL_SET_SCO_DATA_PATH. -/
def HCI_CMD_MARVELL_SET_SCO_DATA_PATH : Nat := 0xFC1D

/-- Opcode HCI_CMD_MARVELL_WRITE_BD_ADDRESS. -/
def HCI_CMD_MARVELL_WRITE_BD_ADDRESS : Nat := 0xFC22

/-- Payload size WRITE_PCM_SETTINGS_SIZE. -/
def WRITE_PCM_SETTINGS_SIZE : Nat := 1

/-- Payload size WRITE_PCM_SYNC_SETTINGS_SIZE. -/
def WRITE_PCM_SYNC_SETTINGS_SIZE : Nat := 3

/-- Payload size WRITE_PCM_LINK_SETTINGS_SIZE. -/
def WRITE_PCM_LINK_SETTINGS_SIZE : Nat := 2

/-- Payload size SET_SCO_DATA_PATH_SIZE. -/
def SET_SCO_DATA_PATH_SIZE : Nat := 1

/-- Payload size WRITE_BD_ADDRESS_SIZE. -/
def WRITE_BD_ADDRESS_SIZE : Nat := 8

/-- HCI_CMD_PREAMBLE_SIZE: opcode (2 bytes) plus 1 length byte. -/
def HCI_CMD_PREAMBLE_SIZE : Nat := 3

/-- HCI_EVT_CMD_CMPL_OPCODE: byte offset of the completed opcode inside a
command-complete event payload. -/
def HCI_EVT_CMD_CMPL_OPCODE : Nat := 3

/-- Modelled from the spec: MSG_STACK_TO_HC_HCI_CMD is the transport event
tag taken from the external header bt_hci_bdroid.h (not part of this
repository); it is opaque transport metadata and no claim depends on its
numeric value. -/
def MSG_STACK_TO_HC_HCI_CMD : Nat := 0x2000

/-- The HC_BT_HDR buffer header from the external header bt_hci_bdroid.h,
with the byte area that follows the header in memory modelled as the
field data. -/
structure HC_BT_HDR where
  event : Nat
  len : Nat
  offset : Nat
  layer_specific : Nat
  data : List Nat
deriving DecidableEq, Repr

/-- Record bt_evt_param_t: the fields parse_evt_buf extracts from a
command-complete event. -/
structure bt_evt_param_t where
  cmd : Nat
  cmd_ret_param : Nat
deriving DecidableEq, Repr

/-- The mutable global byte arrays of hardware_mrvl.c (the fixed command
payload templates; write_bd_address is the only one ever written). -/
structure Globals where
  write_pcm_settings : List Nat
  write_pcm_sync_settings : List Nat
  write_pcm_link_settings : List Nat
  set_sco_data_path : List Nat
  write_bd_address : List Nat
deriving DecidableEq, Repr

/-- Initial values of the global payload templates, as in the C
initializers. -/
def init_globals : Globals :=
  { write_pcm_settings := [0x02]
    write_pcm_sync_settings := [0x03, 0x00, 0x03]
    write_pcm_link_settings := [0x03, 0x00]
    set_sco_data_path := [0x01]
    write_bd_address := [0xFE, 0x06, 0x00, 0x00, 0x00, 0x00, 0x00, 0x00] }

/-- Which heap buffer a deallocation releases: the completion-event buffer
handed to a dispatcher, or a command buffer the current call built. -/
inductive BufKind where
  | evt
  | cmd
deriving DecidableEq, Repr

/-- Externally visible actions of one C call, in program order:
a call to bt_vendor_cbacks dealloc, a call to xmit_cb (recording the
opcode argument, the buffer argument and the value xmit_cb returned), or
a result-callback invocation fwcfg_cb / scocfg_cb. -/
inductive Action where
  | dealloc (k : BufKind)
  | xmit (cmd : Nat) (buf : HC_BT_HDR) (ok : Bool)
  | fwcfg_cb (r : VndResult)
  | scocfg_cb (r : VndResult)
deriving DecidableEq, Repr

/-- The macro STREAM_TO_UINT16: reads a 16-bit little-endian value at
offset p of byte memory mem and advances p by 2.  The reduction modulo
65536 models the conversion to uint16_t (exact whenever the two memory
cells hold bytes). -/
def STREAM_TO_UINT16 (mem : List Nat) (p : Nat) : Nat × Nat :=
  ((mem.getD p 0 + mem.getD (p + 1) 0 * 256) % 65536, p + 2)

/-- populate_bd_addr_params: writes the six address bytes in reversed
order (addr byte 5 first, addr byte 0 last) into the six destination
cells; the result is the byte sequence written. -/
def populate_bd_addr_params (addr : List Nat) : List Nat :=
  [addr.getD 5 0, addr.getD 4 0, addr.getD 3 0,
   addr.getD 2 0, addr.getD 1 0, addr.getD 0 0]

/-- Overwrite the cells of mem starting at offset off with the given
bytes (an in-place memory write of bytes.length cells). -/
def writeBytesAt (mem : List Nat) (off : Nat) (bytes : List Nat) : List Nat :=
  mem.take off ++ bytes ++ mem.drop (off + bytes.length)

/-- build_cmd_buf: if a callback table is registered and the allocator
succeeds, returns a buffer whose header fields are set as in the C code
and whose byte area is the opcode low byte, the opcode high byte, the
payload length byte, then the pl_len payload bytes (memcpy of pl_len
bytes); otherwise returns null. -/
def build_cmd_buf (cbacks allocOk : Bool) (cmd : Nat) (pl_len : Nat)
    (payload : List Nat) : Option HC_BT_HDR :=
  let cmd_len := HCI_CMD_PREAMBLE_SIZE + pl_len
  if cbacks ∧ allocOk then
    some { event := MSG_STACK_TO_HC_HCI_CMD
           len := cmd_len
           offset := 0
           layer_specific := 0
           data := [cmd % 256, (cmd / 256) % 256, pl_len] ++ payload.take pl_len }
  else
    none

/-- parse_evt_buf: reads the completed-command opcode (little-endian
16-bit) at offset HCI_EVT_CMD_CMPL_OPCODE of the event byte area, then
the command return parameter at the following cell. -/
def parse_evt_buf (p_evt_buf : HC_BT_HDR) : bt_evt_param_t :=
  let r := STREAM_TO_UINT16 p_evt_buf.data HCI_EVT_CMD_CMPL_OPCODE
  { cmd := r.1, cmd_ret_param := p_evt_buf.data.getD r.2 0 }

/-- The shared tail of the SCO-pipeline steps: if a command buffer was
built, transmit it and return on acceptance; on transport rejection
release the buffer; in all remaining cases report scocfg failure. -/
def sco_xmit_tail (cmd : Nat) (p_buf : Option HC_BT_HDR) (xmitOk : Bool) :
    List Action :=
  match p_buf with
  | some buf =>
    if xmitOk then
      [Action.xmit cmd buf true]
    else
      [Action.xmit cmd buf false, Action.dealloc BufKind.cmd,
       Action.scocfg_cb VndResult.fail]
  | none => [Action.scocfg_cb VndResult.fail]

/-- The tail of hw_mrvl_config_start: identical control flow to
sco_xmit_tail but reporting through fwcfg_cb. -/
def fw_xmit_tail (cmd : Nat) (p_buf : Option HC_BT_HDR) (xmitOk : Bool) :
    List Action :=
  match p_buf with
  | some buf =>
    if xmitOk then
      [Action.xmit cmd buf true]
    else
      [Action.xmit cmd buf false, Action.dealloc BufKind.cmd,
       Action.fwcfg_cb VndResult.fail]
  | none => [Action.fwcfg_cb VndResult.fail]

/-- hw_mrvl_config_start_cb: parses the event, frees the event buffer if
a callback table is registered, then reports fwcfg success exactly when
the completed opcode is write-bd-address, and failure otherwise (again
only if a callback table is registered). -/
def hw_mrvl_config_start_cb (cbacks : Bool) (p_evt_buf : HC_BT_HDR) :
    List Action :=
  let evt_params := parse_evt_buf p_evt_buf
  (if cbacks then [Action.dealloc BufKind.evt] else []) ++
  (if evt_params.cmd = HCI_CMD_MARVELL_WRITE_BD_ADDRESS then
    (if cbacks then [Action.fwcfg_cb VndResult.success] else [])
  else
    (if cbacks then [Action.fwcfg_cb VndResult.fail] else []))

/-- hw_mrvl_sco_config_cb: asserts the callback table (so it is embedded
under that precondition), parses the event, frees the event buffer, then
advances the SCO chain according to the completed opcode: each of the
three intermediate opcodes builds and transmits the next command, the
final opcode reports success, and any other opcode falls through with a
null buffer to the failure report. -/
def hw_mrvl_sco_config_cb (g : Globals) (allocOk xmitOk : Bool)
    (p_evt_buf : HC_BT_HDR) : List Action :=
  let evt_params := parse_evt_buf p_evt_buf
  Action.dealloc BufKind.evt ::
  (if evt_params.cmd = HCI_CMD_MARVELL_WRITE_PCM_SETTINGS then
    sco_xmit_tail HCI_CMD_MARVELL_WRITE_PCM_SYNC_SETTINGS
      (build_cmd_buf true allocOk HCI_CMD_MARVELL_WRITE_PCM_SYNC_SETTINGS
        WRITE_PCM_SYNC_SETTINGS_SIZE g.write_pcm_sync_settings) xmitOk
  else if evt_params.cmd = HCI_CMD_MARVELL_WRITE_PCM_SYNC_SETTINGS then
    sco_xmit_tail HCI_CMD_MARVELL_WRITE_PCM_LINK_SETTINGS
      (build_cmd_buf true allocOk HCI_CMD_MARVELL_WRITE_PCM_LINK_SETTINGS
        WRITE_PCM_LINK_SETTINGS_SIZE g.write_pcm_link_settings) xmitOk
  else if evt_params.cmd = HCI_CMD_MARVELL_WRITE_PCM_LINK_SETTINGS then
    sco_xmit_tail HCI_CMD_MARVELL_SET_SCO_DATA_PATH
      (build_cmd_buf true allocOk HCI_CMD_MARVELL_SET_SCO_DATA_PATH
        SET_SCO_DATA_PATH_SIZE g.set_sco_data_path) xmitOk
  else if evt_params.cmd = HCI_CMD_MARVELL_SET_SCO_DATA_PATH then
    [Action.scocfg_cb VndResult.success]
  else
    sco_xmit_tail 0 none xmitOk)

/-- hw_mrvl_config_start: asserts the callback table, writes the reversed
device address into the global write_bd_address template at offset 2,
builds the write-bd-address command from the updated template and runs
the transmit-or-fail tail.  Returns the updated globals and the action
trace. -/
def hw_mrvl_config_start (g : Globals) (allocOk xmitOk : Bool)
    (vnd_local_bd_addr : List Nat) : Globals × List Action :=
  let tmpl := writeBytesAt g.write_bd_address 2
    (populate_bd_addr_params vnd_local_bd_addr)
  let g1 : Globals := { g with write_bd_address := tmpl }
  (g1,
   fw_xmit_tail HCI_CMD_MARVELL_WRITE_BD_ADDRESS
     (build_cmd_buf true allocOk HCI_CMD_MARVELL_WRITE_BD_ADDRESS
       WRITE_BD_ADDRESS_SIZE g1.write_bd_address) xmitOk)

/-- hw_mrvl_sco_config: asserts the callback table, builds the
write-pcm-settings command and runs the transmit-or-fail tail. -/
def hw_mrvl_sco_config (g : Globals) (allocOk xmitOk : Bool) : List Action :=
  sco_xmit_tail HCI_CMD_MARVELL_WRITE_PCM_SETTINGS
    (build_cmd_buf true allocOk HCI_CMD_MARVELL_WRITE_PCM_SETTINGS
      WRITE_PCM_SETTINGS_SIZE g.write_pcm_settings) xmitOk

/-- Opcodes passed to xmit_cb along a trace, in order. -/
def sentCmds : List Action → List Nat
  | [] => []
  | Action.xmit c _ _ :: tr => c :: sentCmds tr
  | Action.dealloc _ :: tr => sentCmds tr
  | Action.fwcfg_cb _ :: tr => sentCmds tr
  | Action.scocfg_cb _ :: tr => sentCmds tr

/-- Buffers passed to xmit_cb along a trace, in order. -/
def sentBufs : List Action → List HC_BT_HDR
  | [] => []
  | Action.xmit _ b _ :: tr => b :: sentBufs tr
  | Action.dealloc _ :: tr => sentBufs tr
  | Action.fwcfg_cb _ :: tr => sentBufs tr
  | Action.scocfg_cb _ :: tr => sentBufs tr

/-- Results passed to fwcfg_cb along a trace, in order. -/
def fwcfgCalls : List Action → List VndResult
  | [] => []
  | Action.fwcfg_cb r :: tr => r :: fwcfgCalls tr
  | Action.scocfg_cb _ :: tr => fwcfgCalls tr
  | Action.dealloc _ :: tr => fwcfgCalls tr
  | Action.xmit _ _ _ :: tr => fwcfgCalls tr

/-- Results passed to scocfg_cb along a trace, in order. -/
def scocfgCalls : List Action → List VndResult
  | [] => []
  | Action.scocfg_cb r :: tr => r :: scocfgCalls tr
  | Action.fwcfg_cb _ :: tr => scocfgCalls tr
  | Action.dealloc _ :: tr => scocfgCalls tr
  | Action.xmit _ _ _ :: tr => scocfgCalls tr

/-- Number of deallocations of the completion-event buffer in a trace. -/
def evtDeallocCount : List Action → Nat
  | [] => 0
  | Action.dealloc BufKind.evt :: tr => evtDeallocCount tr + 1
  | Action.dealloc BufKind.cmd :: tr => evtDeallocCount tr
  | Action.xmit _ _ _ :: tr => evtDeallocCount tr
  | Action.fwcfg_cb _ :: tr => evtDeallocCount tr
  | Action.scocfg_cb _ :: tr => evtDeallocCount tr

/-- Number of deallocations of a just-built command buffer in a trace. -/
def cmdDeallocCount : List Action → Nat
  | [] => 0
  | Action.dealloc BufKind.cmd :: tr => cmdDeallocCount tr + 1
  | Action.dealloc BufKind.evt :: tr => cmdDeallocCount tr
  | Action.xmit _ _ _ :: tr => cmdDeallocCount tr
  | Action.fwcfg_cb _ :: tr => cmdDeallocCount tr
  | Action.scocfg_cb _ :: tr => cmdDeallocCount tr

/-- Number of transmissions the transport accepted in a trace. -/
def okXmitCount : List Action → Nat
  | [] => 0
  | Action.xmit _ _ true :: tr => okXmitCount tr + 1
  | Action.xmit _ _ false :: tr => okXmitCount tr
  | Action.dealloc _ :: tr => okXmitCount tr
  | Action.fwcfg_cb _ :: tr => okXmitCount tr
  | Action.scocfg_cb _ :: tr => okXmitCount tr

/-- Total number of result-callback invocations (fwcfg_cb or scocfg_cb)
in a trace. -/
def resultCbCount (tr : List Action) : Nat :=
  (fwcfgCalls tr).length + (scocfgCalls tr).length

/-- A single pipeline step is well terminated: either it reports exactly
one terminal outcome and no transmission was accepted, or the transport
accepted exactly one transmission (the pipeline continues) and no outcome
was reported. -/
def StepOutcomeOk (tr : List Action) : Prop :=
  (resultCbCount tr = 1 ∧ okXmitCount tr = 0) ∨
  (resultCbCount tr = 0 ∧ okXmitCount tr = 1)

/-- The command payload carried by a built buffer: the bytes past the
3-byte preamble. -/
def payloadOf (b : HC_BT_HDR) : List Nat :=
  b.data.drop HCI_CMD_PREAMBLE_SIZE

/-- The complete trace of the SCO pipeline started by hw_mrvl_sco_config
in an environment where allocation and transmission always succeed,
driven by four completion events e1, e2, e3, e4 delivered in order. -/
def sco_run4 (g : Globals) (e1 e2 e3 e4 : HC_BT_HDR) : List Action :=
  hw_mrvl_sco_config g true true ++
  hw_mrvl_sco_config_cb g true true e1 ++
  hw_mrvl_sco_config_cb g true true e2 ++
  hw_mrvl_sco_config_cb g true true e3 ++
  hw_mrvl_sco_config_cb g true true e4

/-- A list of natural numbers of length 6 is a literal 6-element list. -/
theorem list_length_six (A : List Nat) (hA : A.length = 6) :
    ∃ a0 a1 a2 a3 a4 a5, A = [a0, a1, a2, a3, a4, a5] := by
  rcases A with _ | ⟨a0, _ | ⟨a1, _ | ⟨a2, _ | ⟨a3, _ | ⟨a4, _ | ⟨a5, _ | ⟨a6, t⟩⟩⟩⟩⟩⟩⟩ <;>
    simp only [List.length_nil, List.length_cons] at hA <;>
    first
      | exact ⟨a0, a1, a2, a3, a4, a5, rfl⟩
      | omega

/-- A list of natural numbers of length 8 is a literal 8-element list. -/
theorem list_length_eight (L : List Nat) (hL : L.length = 8) :
    ∃ t0 t1 t2 t3 t4 t5 t6 t7, L = [t0, t1, t2, t3, t4, t5, t6, t7] := by
  rcases L with
    _ | ⟨t0, _ | ⟨t1, _ | ⟨t2, _ | ⟨t3, _ | ⟨t4, _ | ⟨t5, _ | ⟨t6, _ | ⟨t7, _ | ⟨t8, t⟩⟩⟩⟩⟩⟩⟩⟩⟩ <;>
    simp only [List.length_nil, List.length_cons] at hL <;>
    first
      | exact ⟨t0, t1, t2, t3, t4, t5, t6, t7, rfl⟩
      | omega

/-- On a 6-byte address, populate_bd_addr_params writes exactly the
reversed address. -/
theorem populate_bd_addr_params_eq_reverse (A : List Nat) (hA : A.length = 6) :
    populate_bd_addr_params A = A.reverse := by
  obtain ⟨a0, a1, a2, a3, a4, a5, rfl⟩ := list_length_six A hA
  rfl

/-- Claim C3: build_cmd_buf returns null exactly when no callback table
is registered or the allocator fails; otherwise the returned buffer holds
the opcode low byte, the opcode high byte, the payload length byte and
then the pl_len payload bytes, and records length 3 + pl_len. -/
theorem build_cmd_buf_spec (cbacks allocOk : Bool) (cmd pl_len : Nat)
    (payload : List Nat) (_hlen : pl_len ≤ 255) (hpl : payload.length = pl_len) :
    (build_cmd_buf cbacks allocOk cmd pl_len payload = none ↔
      cbacks = false ∨ allocOk = false) ∧
    ∀ b, build_cmd_buf cbacks allocOk cmd pl_len payload = some b →
      b.data = cmd % 256 :: (cmd / 256) % 256 :: pl_len :: payload ∧
      b.len = 3 + pl_len := by
  cases cbacks <;> cases allocOk <;>
    simp [build_cmd_buf, HCI_CMD_PREAMBLE_SIZE, ← hpl, List.take_length]

/-- Witness for build_cmd_buf_spec at a concrete input. -/
theorem build_cmd_buf_spec_witness :
    (1 ≤ 255 ∧ ([2] : List Nat).length = 1) ∧
    ((build_cmd_buf true true 0xFC07 1 [2] = none ↔
      true = false ∨ true = false) ∧
    ∀ b, build_cmd_buf true true 0xFC07 1 [2] = some b →
      b.data = 0xFC07 % 256 :: (0xFC07 / 256) % 256 :: 1 :: [2] ∧
      b.len = 3 + 1) :=
  ⟨⟨by decide, by decide⟩,
   build_cmd_buf_spec true true 0xFC07 1 [2] (by decide) (by decide)⟩

/-- Claim C9: on a well-formed event buffer (at least 6 byte cells, each
holding a byte), parse_evt_buf extracts the opcode as the little-endian
16-bit value of the bytes at offsets 3 and 4 of the event byte area and
the status byte at offset 5, and writes exactly those two fields. -/
theorem parse_evt_buf_spec (e : HC_BT_HDR)
    (hlen : 6 ≤ e.data.length) (hbytes : ∀ b ∈ e.data, b < 256) :
    parse_evt_buf e =
      { cmd := e.data.getD 3 0 + e.data.getD 4 0 * 256,
        cmd_ret_param := e.data.getD 5 0 } := by
  have h3 : e.data.getD 3 0 < 256 := by
    rw [List.getD_eq_getElem _ _ (by omega)]
    exact hbytes _ (List.getElem_mem _)
  have h4 : e.data.getD 4 0 < 256 := by
    rw [List.getD_eq_getElem _ _ (by omega)]
    exact hbytes _ (List.getElem_mem _)
  have hm : e.data.getD 3 0 + e.data.getD 4 0 * 256 < 65536 := by omega
  have hdef : parse_evt_buf e =
      { cmd := (e.data.getD 3 0 + e.data.getD 4 0 * 256) % 65536,
        cmd_ret_param := e.data.getD 5 0 } := rfl
  rw [hdef, Nat.mod_eq_of_lt hm]

/-- Witness for parse_evt_buf_spec at a concrete event buffer. -/
theorem parse_evt_buf_spec_witness :
    (6 ≤ ([0, 0, 0, 0x22, 0xFC, 9] : List Nat).length ∧
      ∀ b ∈ ([0, 0, 0, 0x22, 0xFC, 9] : List Nat), b < 256) ∧
    parse_evt_buf ⟨0, 6, 0, 0, [0, 0, 0, 0x22, 0xFC, 9]⟩ =
      { cmd := ([0, 0, 0, 0x22, 0xFC, 9] : List Nat).getD 3 0 +
          ([0, 0, 0, 0x22, 0xFC, 9] : List Nat).getD 4 0 * 256,
        cmd_ret_param := ([0, 0, 0, 0x22, 0xFC, 9] : List Nat).getD 5 0 } :=
  ⟨⟨by decide, by decide⟩,
   parse_evt_buf_spec ⟨0, 6, 0, 0, [0, 0, 0, 0x22, 0xFC, 9]⟩
     (by decide) (by decide)⟩

/-- Claim C2: for every 6-byte device address A, hw_mrvl_config_start
transmits exactly one buffer, whose command payload is 8 bytes: the
parameter id 0xFE, the length 0x06, then A in reversed byte order. -/
theorem config_start_write_addr_payload (A : List Nat) (hA : A.length = 6) :
    ∃ b : HC_BT_HDR,
      sentBufs (hw_mrvl_config_start init_globals true true A).2 = [b] ∧
      payloadOf b = [0xFE, 0x06] ++ A.reverse ∧
      (payloadOf b).length = 8 := by
  obtain ⟨a0, a1, a2, a3, a4, a5, rfl⟩ := list_length_six A hA
  exact ⟨_, rfl, rfl, rfl⟩

/-- Witness for config_start_write_addr_payload at a concrete address. -/
theorem config_start_write_addr_payload_witness :
    ([1, 2, 3, 4, 5, 6] : List Nat).length = 6 ∧
    ∃ b : HC_BT_HDR,
      sentBufs (hw_mrvl_config_start init_globals true true
        [1, 2, 3, 4, 5, 6]).2 = [b] ∧
      payloadOf b = [0xFE, 0x06] ++ ([1, 2, 3, 4, 5, 6] : List Nat).reverse ∧
      (payloadOf b).length = 8 :=
  ⟨by decide, config_start_write_addr_payload [1, 2, 3, 4, 5, 6] (by decide)⟩

/-- Opcodes transmitted along a concatenation of traces. -/
theorem sentCmds_append (l1 l2 : List Action) :
    sentCmds (l1 ++ l2) = sentCmds l1 ++ sentCmds l2 := by
  induction l1 with
  | nil => rfl
  | cons a tr ih => cases a <;> simp [sentCmds, ih]

/-- Firmware-result calls along a concatenation of traces. -/
theorem fwcfgCalls_append (l1 l2 : List Action) :
    fwcfgCalls (l1 ++ l2) = fwcfgCalls l1 ++ fwcfgCalls l2 := by
  induction l1 with
  | nil => rfl
  | cons a tr ih => cases a <;> simp [fwcfgCalls, ih]

/-- SCO-result calls along a concatenation of traces. -/
theorem scocfgCalls_append (l1 l2 : List Action) :
    scocfgCalls (l1 ++ l2) = scocfgCalls l1 ++ scocfgCalls l2 := by
  induction l1 with
  | nil => rfl
  | cons a tr ih => cases a <;> simp [scocfgCalls, ih]

/-- Claim C1: started by hw_mrvl_sco_config and fed four completion
events whose opcodes are, in order, write-PCM-settings 0xFC07,
write-PCM-sync-settings 0xFC28, write-PCM-link-settings 0xFC29 and
set-SCO-data-path 0xFC1D, the SCO pipeline transmits exactly four
commands with exactly those opcodes in that order and invokes the SCO
result callback exactly once, with SUCCESS (and the firmware result
callback never). -/
theorem sco_pipeline_happy (g : Globals) (e1 e2 e3 e4 : HC_BT_HDR)
    (h1 : (parse_evt_buf e1).cmd = 0xFC07)
    (h2 : (parse_evt_buf e2).cmd = 0xFC28)
    (h3 : (parse_evt_buf e3).cmd = 0xFC29)
    (h4 : (parse_evt_buf e4).cmd = 0xFC1D) :
    sentCmds (sco_run4 g e1 e2 e3 e4) = [0xFC07, 0xFC28, 0xFC29, 0xFC1D] ∧
    scocfgCalls (sco_run4 g e1 e2 e3 e4) = [VndResult.success] ∧
    fwcfgCalls (sco_run4 g e1 e2 e3 e4) = [] := by
  refine ⟨?_, ?_, ?_⟩ <;>
    simp [sco_run4, sentCmds_append, scocfgCalls_append, fwcfgCalls_append,
      hw_mrvl_sco_config, hw_mrvl_sco_config_cb, h1, h2, h3, h4,
      HCI_CMD_MARVELL_WRITE_PCM_SETTINGS,
      HCI_CMD_MARVELL_WRITE_PCM_SYNC_SETTINGS,
      HCI_CMD_MARVELL_WRITE_PCM_LINK_SETTINGS,
      HCI_CMD_MARVELL_SET_SCO_DATA_PATH,
      WRITE_PCM_SETTINGS_SIZE, WRITE_PCM_SYNC_SETTINGS_SIZE,
      WRITE_PCM_LINK_SETTINGS_SIZE, SET_SCO_DATA_PATH_SIZE,
      build_cmd_buf, sco_xmit_tail, sentCmds, scocfgCalls, fwcfgCalls]

/-- Witness for sco_pipeline_happy on concrete event buffers. -/
theorem sco_pipeline_happy_witness :
    ((parse_evt_buf ⟨0, 6, 0, 0, [0, 0, 0, 0x07, 0xFC, 0]⟩).cmd = 0xFC07 ∧
     (parse_evt_buf ⟨0, 6, 0, 0, [0, 0, 0, 0x28, 0xFC, 0]⟩).cmd = 0xFC28 ∧
     (parse_evt_buf ⟨0, 6, 0, 0, [0, 0, 0, 0x29, 0xFC, 0]⟩).cmd = 0xFC29 ∧
     (parse_evt_buf ⟨0, 6, 0, 0, [0, 0, 0, 0x1D, 0xFC, 0]⟩).cmd = 0xFC1D) ∧
    (sentCmds (sco_run4 init_globals
        ⟨0, 6, 0, 0, [0, 0, 0, 0x07, 0xFC, 0]⟩
        ⟨0, 6, 0, 0, [0, 0, 0, 0x28, 0xFC, 0]⟩
        ⟨0, 6, 0, 0, [0, 0, 0, 0x29, 0xFC, 0]⟩
        ⟨0, 6, 0, 0, [0, 0, 0, 0x1D, 0xFC, 0]⟩) =
      [0xFC07, 0xFC28, 0xFC29, 0xFC1D] ∧
     scocfgCalls (sco_run4 init_globals
        ⟨0, 6, 0, 0, [0, 0, 0, 0x07, 0xFC, 0]⟩
        ⟨0, 6, 0, 0, [0, 0, 0, 0x28, 0xFC, 0]⟩
        ⟨0, 6, 0, 0, [0, 0, 0, 0x29, 0xFC, 0]⟩
        ⟨0, 6, 0, 0, [0, 0, 0, 0x1D, 0xFC, 0]⟩) = [VndResult.success] ∧
     fwcfgCalls (sco_run4 init_globals
        ⟨0, 6, 0, 0, [0, 0, 0, 0x07, 0xFC, 0]⟩
        ⟨0, 6, 0, 0, [0, 0, 0, 0x28, 0xFC, 0]⟩
        ⟨0, 6, 0, 0, [0, 0, 0, 0x29, 0xFC, 0]⟩
        ⟨0, 6, 0, 0, [0, 0, 0, 0x1D, 0xFC, 0]⟩) = []) :=
  ⟨⟨by decide, by decide, by decide, by decide⟩,
   sco_pipeline_happy init_globals
     ⟨0, 6, 0, 0, [0, 0, 0, 0x07, 0xFC, 0]⟩
     ⟨0, 6, 0, 0, [0, 0, 0, 0x28, 0xFC, 0]⟩
     ⟨0, 6, 0, 0, [0, 0, 0, 0x29, 0xFC, 0]⟩
     ⟨0, 6, 0, 0, [0, 0, 0, 0x1D, 0xFC, 0]⟩
     (by decide) (by decide) (by decide) (by decide)⟩

/-- Claim C4: at every step of either pipeline (the two entry points and
each continuing step of the SCO dispatcher), if the transport rejects the
transmission the step deallocates exactly one just-built command buffer
and reports FAIL through that pipeline's result callback in the same
call, with no accepted transmission to wait on. -/
theorem xmit_reject_fails_immediately (g : Globals) (A : List Nat)
    (e1 e2 e3 : HC_BT_HDR)
    (h1 : (parse_evt_buf e1).cmd = 0xFC07)
    (h2 : (parse_evt_buf e2).cmd = 0xFC28)
    (h3 : (parse_evt_buf e3).cmd = 0xFC29) :
    (fwcfgCalls (hw_mrvl_config_start g true false A).2 = [VndResult.fail] ∧
     cmdDeallocCount (hw_mrvl_config_start g true false A).2 = 1 ∧
     okXmitCount (hw_mrvl_config_start g true false A).2 = 0) ∧
    (scocfgCalls (hw_mrvl_sco_config g true false) = [VndResult.fail] ∧
     cmdDeallocCount (hw_mrvl_sco_config g true false) = 1 ∧
     okXmitCount (hw_mrvl_sco_config g true false) = 0) ∧
    (scocfgCalls (hw_mrvl_sco_config_cb g true false e1) = [VndResult.fail] ∧
     cmdDeallocCount (hw_mrvl_sco_config_cb g true false e1) = 1 ∧
     okXmitCount (hw_mrvl_sco_config_cb g true false e1) = 0) ∧
    (scocfgCalls (hw_mrvl_sco_config_cb g true false e2) = [VndResult.fail] ∧
     cmdDeallocCount (hw_mrvl_sco_config_cb g true false e2) = 1 ∧
     okXmitCount (hw_mrvl_sco_config_cb g true false e2) = 0) ∧
    (scocfgCalls (hw_mrvl_sco_config_cb g true false e3) = [VndResult.fail] ∧
     cmdDeallocCount (hw_mrvl_sco_config_cb g true false e3) = 1 ∧
     okXmitCount (hw_mrvl_sco_config_cb g true false e3) = 0) := by
  refine ⟨⟨?_, ?_, ?_⟩, ⟨?_, ?_, ?_⟩, ⟨?_, ?_, ?_⟩, ⟨?_, ?_, ?_⟩, ⟨?_, ?_, ?_⟩⟩ <;>
    simp [hw_mrvl_config_start, hw_mrvl_sco_config, hw_mrvl_sco_config_cb,
      h1, h2, h3, build_cmd_buf, fw_xmit_tail, sco_xmit_tail,
      writeBytesAt, populate_bd_addr_params,
      HCI_CMD_MARVELL_WRITE_PCM_SETTINGS,
      HCI_CMD_MARVELL_WRITE_PCM_SYNC_SETTINGS,
      HCI_CMD_MARVELL_WRITE_PCM_LINK_SETTINGS,
      HCI_CMD_MARVELL_SET_SCO_DATA_PATH,
      HCI_CMD_MARVELL_WRITE_BD_ADDRESS,
      WRITE_PCM_SETTINGS_SIZE, WRITE_PCM_SYNC_SETTINGS_SIZE,
      WRITE_PCM_LINK_SETTINGS_SIZE, SET_SCO_DATA_PATH_SIZE,
      WRITE_BD_ADDRESS_SIZE,
      fwcfgCalls, scocfgCalls, cmdDeallocCount, okXmitCount]

/-- Witness for xmit_reject_fails_immediately on concrete inputs. -/
theorem xmit_reject_fails_immediately_witness :
    ((parse_evt_buf ⟨0, 6, 0, 0, [0, 0, 0, 0x07, 0xFC, 0]⟩).cmd = 0xFC07 ∧
     (parse_evt_buf ⟨0, 6, 0, 0, [0, 0, 0, 0x28, 0xFC, 0]⟩).cmd = 0xFC28 ∧
     (parse_evt_buf ⟨0, 6, 0, 0, [0, 0, 0, 0x29, 0xFC, 0]⟩).cmd = 0xFC29) ∧
    (fwcfgCalls (hw_mrvl_config_start init_globals true false
        [1, 2, 3, 4, 5, 6]).2 = [VndResult.fail] ∧
     cmdDeallocCount (hw_mrvl_config_start init_globals true false
        [1, 2, 3, 4, 5, 6]).2 = 1 ∧
     okXmitCount (hw_mrvl_config_start init_globals true false
        [1, 2, 3, 4, 5, 6]).2 = 0) ∧
    (scocfgCalls (hw_mrvl_sco_config init_globals true false) =
        [VndResult.fail] ∧
     cmdDeallocCount (hw_mrvl_sco_config init_globals true false) = 1 ∧
     okXmitCount (hw_mrvl_sco_config init_globals true false) = 0) ∧
    (scocfgCalls (hw_mrvl_sco_config_cb init_globals true false
        ⟨0, 6, 0, 0, [0, 0, 0, 0x07, 0xFC, 0]⟩) = [VndResult.fail] ∧
     cmdDeallocCount (hw_mrvl_sco_config_cb init_globals true false
        ⟨0, 6, 0, 0, [0, 0, 0, 0x07, 0xFC, 0]⟩) = 1 ∧
     okXmitCount (hw_mrvl_sco_config_cb init_globals true false
        ⟨0, 6, 0, 0, [0, 0, 0, 0x07, 0xFC, 0]⟩) = 0) ∧
    (scocfgCalls (hw_mrvl_sco_config_cb init_globals true false
        ⟨0, 6, 0, 0, [0, 0, 0, 0x28, 0xFC, 0]⟩) = [VndResult.fail] ∧
     cmdDeallocCount (hw_mrvl_sco_config_cb init_globals true false
        ⟨0, 6, 0, 0, [0, 0, 0, 0x28, 0xFC, 0]⟩) = 1 ∧
     okXmitCount (hw_mrvl_sco_config_cb init_globals true false
        ⟨0, 6, 0, 0, [0, 0, 0, 0x28, 0xFC, 0]⟩) = 0) ∧
    (scocfgCalls (hw_mrvl_sco_config_cb init_globals true false
        ⟨0, 6, 0, 0, [0, 0, 0, 0x29, 0xFC, 0]⟩) = [VndResult.fail] ∧
     cmdDeallocCount (hw_mrvl_sco_config_cb init_globals true false
        ⟨0, 6, 0, 0, [0, 0, 0, 0x29, 0xFC, 0]⟩) = 1 ∧
     okXmitCount (hw_mrvl_sco_config_cb init_globals true false
        ⟨0, 6, 0, 0, [0, 0, 0, 0x29, 0xFC, 0]⟩) = 0) :=
  ⟨⟨by decide, by decide, by decide⟩,
   xmit_reject_fails_immediately init_globals [1, 2, 3, 4, 5, 6]
     ⟨0, 6, 0, 0, [0, 0, 0, 0x07, 0xFC, 0]⟩
     ⟨0, 6, 0, 0, [0, 0, 0, 0x28, 0xFC, 0]⟩
     ⟨0, 6, 0, 0, [0, 0, 0, 0x29, 0xFC, 0]⟩
     (by decide) (by decide) (by decide)⟩

/-- Claim C5: a completion event whose parsed opcode is unexpected (for
the firmware dispatcher: anything other than write-bd-address 0xFC22;
for the SCO dispatcher: anything outside its transition table) makes the
dispatcher invoke that pipeline's failure callback exactly once and
transmit no further command. -/
theorem unexpected_opcode_fails (g : Globals) (allocOk xmitOk : Bool)
    (ef es : HC_BT_HDR)
    (hf : (parse_evt_buf ef).cmd ≠ 0xFC22)
    (hs1 : (parse_evt_buf es).cmd ≠ 0xFC07)
    (hs2 : (parse_evt_buf es).cmd ≠ 0xFC28)
    (hs3 : (parse_evt_buf es).cmd ≠ 0xFC29)
    (hs4 : (parse_evt_buf es).cmd ≠ 0xFC1D) :
    (fwcfgCalls (hw_mrvl_config_start_cb true ef) = [VndResult.fail] ∧
     sentCmds (hw_mrvl_config_start_cb true ef) = []) ∧
    (scocfgCalls (hw_mrvl_sco_config_cb g allocOk xmitOk es) =
        [VndResult.fail] ∧
     sentCmds (hw_mrvl_sco_config_cb g allocOk xmitOk es) = []) := by
  refine ⟨⟨?_, ?_⟩, ⟨?_, ?_⟩⟩ <;>
    simp [hw_mrvl_config_start_cb, hw_mrvl_sco_config_cb,
      hf, hs1, hs2, hs3, hs4, sco_xmit_tail,
      HCI_CMD_MARVELL_WRITE_BD_ADDRESS,
      HCI_CMD_MARVELL_WRITE_PCM_SETTINGS,
      HCI_CMD_MARVELL_WRITE_PCM_SYNC_SETTINGS,
      HCI_CMD_MARVELL_WRITE_PCM_LINK_SETTINGS,
      HCI_CMD_MARVELL_SET_SCO_DATA_PATH,
      fwcfgCalls, scocfgCalls, sentCmds]

/-- Witness for unexpected_opcode_fails on concrete event buffers with
opcode 0x1234. -/
theorem unexpected_opcode_fails_witness :
    ((parse_evt_buf ⟨0, 6, 0, 0, [0, 0, 0, 0x34, 0x12, 0]⟩).cmd ≠ 0xFC22 ∧
     (parse_evt_buf ⟨0, 6, 0, 0, [0, 0, 0, 0x34, 0x12, 0]⟩).cmd ≠ 0xFC07 ∧
     (parse_evt_buf ⟨0, 6, 0, 0, [0, 0, 0, 0x34, 0x12, 0]⟩).cmd ≠ 0xFC28 ∧
     (parse_evt_buf ⟨0, 6, 0, 0, [0, 0, 0, 0x34, 0x12, 0]⟩).cmd ≠ 0xFC29 ∧
     (parse_evt_buf ⟨0, 6, 0, 0, [0, 0, 0, 0x34, 0x12, 0]⟩).cmd ≠ 0xFC1D) ∧
    ((fwcfgCalls (hw_mrvl_config_start_cb true
        ⟨0, 6, 0, 0, [0, 0, 0, 0x34, 0x12, 0]⟩) = [VndResult.fail] ∧
      sentCmds (hw_mrvl_config_start_cb true
        ⟨0, 6, 0, 0, [0, 0, 0, 0x34, 0x12, 0]⟩) = []) ∧
     (scocfgCalls (hw_mrvl_sco_config_cb init_globals true true
        ⟨0, 6, 0, 0, [0, 0, 0, 0x34, 0x12, 0]⟩) = [VndResult.fail] ∧
      sentCmds (hw_mrvl_sco_config_cb init_globals true true
        ⟨0, 6, 0, 0, [0, 0, 0, 0x34, 0x12, 0]⟩) = [])) :=
  ⟨⟨by decide, by decide, by decide, by decide, by decide⟩,
   unexpected_opcode_fails init_globals true true
     ⟨0, 6, 0, 0, [0, 0, 0, 0x34, 0x12, 0]⟩
     ⟨0, 6, 0, 0, [0, 0, 0, 0x34, 0x12, 0]⟩
     (by decide) (by decide) (by decide) (by decide) (by decide)⟩

/-- The transmit-or-fail tail of the SCO steps never touches the
completion-event buffer. -/
theorem evtDeallocCount_sco_xmit_tail (c : Nat) (p : Option HC_BT_HDR)
    (x : Bool) : evtDeallocCount (sco_xmit_tail c p x) = 0 := by
  cases p <;> cases x <;> simp [sco_xmit_tail, evtDeallocCount]

/-- Claim C6: each completion dispatcher deallocates the event buffer it
is handed exactly once, on every path (success, unexpected opcode, build
failure and transport rejection alike). -/
theorem evt_buf_freed_once (g : Globals) (allocOk xmitOk : Bool)
    (e : HC_BT_HDR) :
    evtDeallocCount (hw_mrvl_config_start_cb true e) = 1 ∧
    evtDeallocCount (hw_mrvl_sco_config_cb g allocOk xmitOk e) = 1 := by
  constructor
  · simp only [hw_mrvl_config_start_cb, if_true]
    split_ifs <;> simp [evtDeallocCount]
  · simp only [hw_mrvl_sco_config_cb]
    split_ifs <;>
      simp [evtDeallocCount, evtDeallocCount_sco_xmit_tail]

/-- The transmit-or-fail tail of the firmware pipeline is a well
terminated step. -/
theorem stepOutcomeOk_fw_xmit_tail (c : Nat) (p : Option HC_BT_HDR)
    (x : Bool) : StepOutcomeOk (fw_xmit_tail c p x) := by
  cases p <;> cases x <;>
    simp [fw_xmit_tail, StepOutcomeOk, resultCbCount,
      fwcfgCalls, scocfgCalls, okXmitCount]

/-- The transmit-or-fail tail of the SCO pipeline is a well terminated
step. -/
theorem stepOutcomeOk_sco_xmit_tail (c : Nat) (p : Option HC_BT_HDR)
    (x : Bool) : StepOutcomeOk (sco_xmit_tail c p x) := by
  cases p <;> cases x <;>
    simp [sco_xmit_tail, StepOutcomeOk, resultCbCount,
      fwcfgCalls, scocfgCalls, okXmitCount]

/-- Prepending a deallocation never changes whether a step is well
terminated. -/
theorem stepOutcomeOk_dealloc_cons (k : BufKind) (tr : List Action) :
    StepOutcomeOk (Action.dealloc k :: tr) ↔ StepOutcomeOk tr := by
  simp [StepOutcomeOk, resultCbCount, fwcfgCalls, scocfgCalls, okXmitCount]

/-- Claim C7: every invocation of a pipeline entry point or completion
dispatcher either has exactly one transmission accepted by the transport
(and reports nothing), or invokes the pipeline's result callback exactly
once; no path does neither, and no path reports more than once. -/
theorem outcome_reported_exactly_once (g : Globals) (allocOk xmitOk : Bool)
    (A : List Nat) (e : HC_BT_HDR) :
    StepOutcomeOk (hw_mrvl_config_start g allocOk xmitOk A).2 ∧
    StepOutcomeOk (hw_mrvl_sco_config g allocOk xmitOk) ∧
    StepOutcomeOk (hw_mrvl_config_start_cb true e) ∧
    StepOutcomeOk (hw_mrvl_sco_config_cb g allocOk xmitOk e) := by
  refine ⟨?_, ?_, ?_, ?_⟩
  · exact stepOutcomeOk_fw_xmit_tail _ _ _
  · exact stepOutcomeOk_sco_xmit_tail _ _ _
  · simp only [hw_mrvl_config_start_cb, if_true]
    split_ifs <;>
      simp [StepOutcomeOk, resultCbCount, fwcfgCalls, scocfgCalls,
        okXmitCount]
  · simp only [hw_mrvl_sco_config_cb, stepOutcomeOk_dealloc_cons]
    split_ifs <;>
      first
        | exact stepOutcomeOk_sco_xmit_tail _ _ _
        | simp [StepOutcomeOk, resultCbCount, fwcfgCalls, scocfgCalls,
            okXmitCount]

/-- Claim C8: the firmware dispatcher's behaviour depends only on the
parsed opcode of the completion event; two event buffers that parse to
the same opcode (in particular, buffers differing only in the status
byte) produce identical action traces. -/
theorem fw_outcome_ignores_status (cbacks : Bool) (e1 e2 : HC_BT_HDR)
    (h : (parse_evt_buf e1).cmd = (parse_evt_buf e2).cmd) :
    hw_mrvl_config_start_cb cbacks e1 = hw_mrvl_config_start_cb cbacks e2 := by
  simp only [hw_mrvl_config_start_cb, h]

/-- Witness for fw_outcome_ignores_status: two event buffers with the
same opcode 0xFC22 and different status bytes. -/
theorem fw_outcome_ignores_status_witness :
    (parse_evt_buf ⟨0, 6, 0, 0, [0, 0, 0, 0x22, 0xFC, 0]⟩).cmd =
      (parse_evt_buf ⟨0, 6, 0, 0, [0, 0, 0, 0x22, 0xFC, 7]⟩).cmd ∧
    hw_mrvl_config_start_cb true ⟨0, 6, 0, 0, [0, 0, 0, 0x22, 0xFC, 0]⟩ =
      hw_mrvl_config_start_cb true ⟨0, 6, 0, 0, [0, 0, 0, 0x22, 0xFC, 7]⟩ :=
  ⟨by decide,
   fw_outcome_ignores_status true
     ⟨0, 6, 0, 0, [0, 0, 0, 0x22, 0xFC, 0]⟩
     ⟨0, 6, 0, 0, [0, 0, 0, 0x22, 0xFC, 7]⟩ (by decide)⟩

/-- Claim C10: hw_mrvl_config_start updates the global write_bd_address
template in place, writing the reversed address into bytes 2..7, leaving
bytes 0 and 1 of the template and every other global payload template
unchanged; on the initial globals those two leading bytes are 0xFE and
0x06. -/
theorem config_start_frame (g : Globals) (allocOk xmitOk : Bool)
    (A : List Nat) (hg : g.write_bd_address.length = 8) (hA : A.length = 6) :
    ((hw_mrvl_config_start g allocOk xmitOk A).1.write_bd_address.take 2 =
      g.write_bd_address.take 2) ∧
    ((hw_mrvl_config_start g allocOk xmitOk A).1.write_bd_address.drop 2 =
      A.reverse) ∧
    ((hw_mrvl_config_start g allocOk xmitOk A).1.write_bd_address.length = 8) ∧
    ((hw_mrvl_config_start g allocOk xmitOk A).1.write_pcm_settings =
      g.write_pcm_settings) ∧
    ((hw_mrvl_config_start g allocOk xmitOk A).1.write_pcm_sync_settings =
      g.write_pcm_sync_settings) ∧
    ((hw_mrvl_config_start g allocOk xmitOk A).1.write_pcm_link_settings =
      g.write_pcm_link_settings) ∧
    ((hw_mrvl_config_start g allocOk xmitOk A).1.set_sco_data_path =
      g.set_sco_data_path) ∧
    init_globals.write_bd_address.take 2 = [0xFE, 0x06] := by
  obtain ⟨a0, a1, a2, a3, a4, a5, rfl⟩ := list_length_six A hA
  obtain ⟨t0, t1, t2, t3, t4, t5, t6, t7, ht⟩ :=
    list_length_eight g.write_bd_address hg
  refine ⟨?_, ?_, ?_, rfl, rfl, rfl, rfl, by decide⟩ <;>
    simp [hw_mrvl_config_start, writeBytesAt, populate_bd_addr_params, ht]

/-- Witness for config_start_frame on the initial globals and a concrete
address. -/
theorem config_start_frame_witness :
    (init_globals.write_bd_address.length = 8 ∧
      ([1, 2, 3, 4, 5, 6] : List Nat).length = 6) ∧
    (((hw_mrvl_config_start init_globals true true
        [1, 2, 3, 4, 5, 6]).1.write_bd_address.take 2 =
      init_globals.write_bd_address.take 2) ∧
    ((hw_mrvl_config_start init_globals true true
        [1, 2, 3, 4, 5, 6]).1.write_bd_address.drop 2 =
      ([1, 2, 3, 4, 5, 6] : List Nat).reverse) ∧
    ((hw_mrvl_config_start init_globals true true
        [1, 2, 3, 4, 5, 6]).1.write_bd_address.length = 8) ∧
    ((hw_mrvl_config_start init_globals true true
        [1, 2, 3, 4, 5, 6]).1.write_pcm_settings =
      init_globals.write_pcm_settings) ∧
    ((hw_mrvl_config_start init_globals true true
        [1, 2, 3, 4, 5, 6]).1.write_pcm_sync_settings =
      init_globals.write_pcm_sync_settings) ∧
    ((hw_mrvl_config_start init_globals true true
        [1, 2, 3, 4, 5, 6]).1.write_pcm_link_settings =
      init_globals.write_pcm_link_settings) ∧
    ((hw_mrvl_config_start init_globals true true
        [1, 2, 3, 4, 5, 6]).1.set_sco_data_path =
      init_globals.set_sco_data_path) ∧
    init_globals.write_bd_address.take 2 = [0xFE, 0x06]) :=
  ⟨⟨by decide, by decide⟩,
   config_start_frame init_globals true true [1, 2, 3, 4, 5, 6]
     (by decide) (by decide)⟩

end Mrvl
